import Mathlib

/-!
Verification of the staged animation timeline engine in
`src/visuals/manim/frost_dkg_animation.py`.

The development shallowly embeds the engine in three layers:

1. Geometry layer (`norm2`, `NodeBoxG.edge_point`, `arrow_between`,
   `broadcast_with_labels`, `share_with_label`): exact-real translation of the
   source geometry.  Floating-point arithmetic of the source is idealised as
   real arithmetic; `np.linalg.norm` becomes `Real.sqrt` of the sum of squares.
   Every `NodeBox` in the source is constructed with a 2.0 x 1.0 rounded
   rectangle, so the rectangle extent is a constant of the model.
2. Visual-state layer (`VisualState`, `PropOp`, `applyOps`): the property
   assignments performed by the `activate` / `deactivate` animations.
3. Trace layer (`SceneObj`, `SceneCmd`, `constructTrace`): the ordered list of
   `self.play` / `self.wait` steps the `FrostDKGScene.construct` method issues,
   one trace step per play call, with the commands of a step applied
   simultaneously.  Only discrete content (which object appears or disappears,
   which node is spotlighted) is tracked here; positions live in layer 1.

A final section models, from the spec only, the `ConfigurationError`
validation of Group Composer units, which has no counterpart in the source.
-/

/- ---------------------------------------------------------------- -/
/- Colors and TeX strings (symbolic).                                -/
/- ---------------------------------------------------------------- -/

/-- Manim color constants used by the scene, as symbols. -/
inductive MColor where
  | greyA
  | greenE
  | greenB
  | blueD
  | black
  | white
deriving DecidableEq

def NODE_COLOR_INACTIVE : MColor := .greyA
def NODE_COLOR_ACTIVE : MColor := .greenE
def ARROW_COLOR : MColor := .black
def BROADCAST_COLOR : MColor := .blueD
def SHARE_COLOR : MColor := .greenB
def STAGE3_ARROW_COLOR : MColor := .blueD
def TICK_COLOR : MColor := .greenE

/-- TeX strings appearing in the scene, as symbols (the exact glyphs are
irrelevant to the engine; only identity and the broadcast index matter). -/
inductive TexStr where
  | gPowC (idx : ℕ)
  | sIJ
  | fPoly
  | sSub (i : ℕ)
  | pubEq
  | privEq
deriving DecidableEq

/- ---------------------------------------------------------------- -/
/- Geometry layer.                                                   -/
/- ---------------------------------------------------------------- -/

/-- Euclidean norm of a 2-D vector, as in `np.linalg.norm`. -/
noncomputable def norm2 (v : ℝ × ℝ) : ℝ :=
  Real.sqrt (v.1 ^ 2 + v.2 ^ 2)

/-- A `NodeBox`: a labelled 2.0 x 1.0 rounded rectangle positioned by its
center.  The rectangle extent is fixed by the constructor in the source. -/
structure NodeBoxG where
  label : String
  center : ℝ × ℝ

/-- `NodeBox.__init__`: a fresh box sits at the origin. -/
def mkNodeBox (label : String) : NodeBoxG :=
  { label := label, center := (0, 0) }

/-- `move_to`: reposition the box center. -/
def NodeBoxG.moveTo (n : NodeBoxG) (p : ℝ × ℝ) : NodeBoxG :=
  { n with center := p }

/-- `self.rect.width` of every constructed `NodeBox`. -/
def rectWidth : ℝ := 2

/-- `self.rect.height` of every constructed `NodeBox`. -/
def rectHeight : ℝ := 1

/-- `max(self.rect.width, self.rect.height) / 2`: the boundary radius
approximation used by `edge_point` (the spec's `boundingHalfExtent`). -/
noncomputable def nodeBorder : ℝ := max rectWidth rectHeight / 2

open Classical in
/-- `NodeBox.edge_point(target, margin)`: the point on the ray from the center
toward `target` at distance `nodeBorder + margin`; the center itself when the
direction is zero.  The source default for `margin` is `0.1`. -/
noncomputable def NodeBoxG.edge_point (n : NodeBoxG) (target : ℝ × ℝ) (margin : ℝ) : ℝ × ℝ :=
  if norm2 (target - n.center) = 0 then n.center
  else n.center + (nodeBorder + margin) • ((norm2 (target - n.center))⁻¹ • (target - n.center))

/-- A straight manim `Arrow` with `buff=0`. -/
structure ArrowG where
  startP : ℝ × ℝ
  endP : ℝ × ℝ
  color : MColor
  strokeWidth : ℕ

/-- `arrow_between(a, b, color, width)`: endpoints from each box's
`edge_point` toward the other box's center, with the default margin `0.1`. -/
noncomputable def arrow_between (a b : NodeBoxG) (color : MColor) (width : ℕ) : ArrowG :=
  { startP := a.edge_point b.center (1/10)
    endP := b.edge_point a.center (1/10)
    color := color
    strokeWidth := width }

/-- `arrow.get_center()` of a straight arrow: the segment midpoint. -/
noncomputable def ArrowG.midP (ar : ArrowG) : ℝ × ℝ :=
  ((1 : ℝ)/2) • (ar.startP + ar.endP)

/-- A positioned inline `Tex` label. -/
structure TexLabel where
  text : TexStr
  pos : ℝ × ℝ
  color : MColor

/-- Loop body of `broadcast_with_labels`: one arrow plus one label per peer,
label text indexed from `idx`, label placed at `arrow.get_center() + UP * 0.3`. -/
noncomputable def broadcastAux (p : NodeBoxG) : ℕ → List NodeBoxG → List ArrowG × List TexLabel
  | _, [] => ([], [])
  | idx, t :: rest =>
    (arrow_between p t BROADCAST_COLOR 4 :: (broadcastAux p (idx + 1) rest).1,
     { text := TexStr.gPowC idx
       pos := (arrow_between p t BROADCAST_COLOR 4).midP + ((0 : ℝ), 3/10)
       color := BROADCAST_COLOR } :: (broadcastAux p (idx + 1) rest).2)

/-- `broadcast_with_labels(from_node, others)`: indices start at 1
(`enumerate(others, start=1)`). -/
noncomputable def broadcast_with_labels (p : NodeBoxG) (others : List NodeBoxG) :
    List ArrowG × List TexLabel :=
  broadcastAux p 1 others

/-- `share_with_label(from_node, to_node)`: one share arrow plus one label at
`arrow.get_center() + UP * 0.25`. -/
noncomputable def share_with_label (a b : NodeBoxG) : ArrowG × TexLabel :=
  (arrow_between a b SHARE_COLOR 6,
   { text := TexStr.sIJ
     pos := (arrow_between a b SHARE_COLOR 6).midP + ((0 : ℝ), 1/4)
     color := SHARE_COLOR })

/-- A confirmation tick, placed `next_to` its anchor node (discrete model:
only the anchor is tracked). -/
structure TickMark where
  anchor : NodeBoxG
  color : MColor

/-- `tick_at(target)`. -/
def tick_at (m : NodeBoxG) : TickMark :=
  { anchor := m, color := TICK_COLOR }

/-- Dot product on the plane, used to express perpendicularity. -/
noncomputable def dotProd (u v : ℝ × ℝ) : ℝ :=
  u.1 * v.1 + u.2 * v.2

/- ---------------------------------------------------------------- -/
/- Visual-state layer.                                               -/
/- ---------------------------------------------------------------- -/

/-- The visual properties of a `NodeBox` the activate/deactivate animations
touch: rectangle fill color and opacity, rectangle (border) color, label
color. -/
structure VisualState where
  fillColor : MColor
  fillOpacity : ℚ
  rectColor : MColor
  textColor : MColor
deriving DecidableEq

/-- Properties of a freshly constructed `NodeBox` (manim `Text` defaults to
white). -/
def initialVisual : VisualState :=
  { fillColor := .greyA, fillOpacity := 2/5, rectColor := .greyA, textColor := .white }

/-- An atomic property assignment inside an `animate` chain. -/
inductive PropOp where
  | setFill (c : MColor) (opacity : ℚ)
  | setRectColor (c : MColor)
  | setTextColor (c : MColor)
deriving DecidableEq

/-- The assignments of `NodeBox.activate`:
`rect.animate.set_fill(NODE_COLOR_ACTIVE, opacity=0.8).set_color(NODE_COLOR_ACTIVE)`
together with `text.animate.set_color(WHITE)`. -/
def activateOps : List PropOp :=
  [.setFill NODE_COLOR_ACTIVE (4/5), .setRectColor NODE_COLOR_ACTIVE, .setTextColor .white]

/-- The assignments of `NodeBox.deactivate`:
`rect.animate.set_fill(NODE_COLOR_INACTIVE, opacity=0.4).set_color(NODE_COLOR_INACTIVE)`
together with `text.animate.set_color(WHITE)`. -/
def deactivateOps : List PropOp :=
  [.setFill NODE_COLOR_INACTIVE (2/5), .setRectColor NODE_COLOR_INACTIVE, .setTextColor .white]

/-- Effect of one property assignment on the visual state. -/
def applyOp (s : VisualState) : PropOp → VisualState
  | .setFill c o => { s with fillColor := c, fillOpacity := o }
  | .setRectColor c => { s with rectColor := c }
  | .setTextColor c => { s with textColor := c }

/-- Effect of a whole animation (list of assignments) once committed. -/
def applyOps (s : VisualState) (ops : List PropOp) : VisualState :=
  ops.foldl applyOp s

/-- A full entity: geometric box plus committed visual state. -/
structure Entity where
  box : NodeBoxG
  visual : VisualState

/-- Calling `activate()`: returns the animation spec; the entity itself is
untouched (the source method performs no assignment to `self`). -/
def Entity.activateCall (e : Entity) : List PropOp × Entity :=
  (activateOps, e)

/-- Calling `deactivate()`: returns the animation spec; the entity itself is
untouched. -/
def Entity.deactivateCall (e : Entity) : List PropOp × Entity :=
  (deactivateOps, e)

/-- Calling `edge_point()`: returns the anchor point; the entity itself is
untouched. -/
noncomputable def Entity.edgePointCall (e : Entity) (t : ℝ × ℝ) (m : ℝ) : (ℝ × ℝ) × Entity :=
  (e.box.edge_point t m, e)

/-- The sequencer committing a scheduled animation onto an entity. -/
def Entity.commit (e : Entity) (ops : List PropOp) : Entity :=
  { e with visual := applyOps e.visual ops }

/- ---------------------------------------------------------------- -/
/- Stage-script data.                                                -/
/- ---------------------------------------------------------------- -/

/-- `LEFT * 3 + UP * 0.5`. -/
noncomputable def p1_pos : ℝ × ℝ := (-3, 1/2)

/-- `RIGHT * 3 + UP * 0.5`. -/
noncomputable def p2_pos : ℝ × ℝ := (3, 1/2)

/-- `DOWN * 2`. -/
noncomputable def p3_pos : ℝ × ℝ := (0, -2)

noncomputable def p1 : NodeBoxG := (mkNodeBox ("P1")).moveTo p1_pos
noncomputable def p2 : NodeBoxG := (mkNodeBox ("P2")).moveTo p2_pos
noncomputable def p3 : NodeBoxG := (mkNodeBox ("P3")).moveTo p3_pos

/-- Stage 1 round-robin: `((p1, [p2, p3]), (p2, [p1, p3]), (p3, [p1, p2]))`.
The later whole-group re-centering translates all three boxes equally and is
immaterial to the counts stated about these rounds. -/
noncomputable def stage1_rounds : List (NodeBoxG × List NodeBoxG) :=
  [(p1, [p2, p3]), (p2, [p1, p3]), (p3, [p1, p2])]

/-- Stage 2 round-robin, same tuples as stage 1. -/
noncomputable def stage2_rounds : List (NodeBoxG × List NodeBoxG) :=
  [(p1, [p2, p3]), (p2, [p1, p3]), (p3, [p1, p2])]

/-- Stage 2 loop body, arrow part: one share arrow per peer. -/
noncomputable def stage2_arrows (a : NodeBoxG) (peers : List NodeBoxG) : List ArrowG :=
  peers.map (fun q => (share_with_label a q).1)

/-- Stage 2 loop body, label part. -/
noncomputable def stage2_labels (a : NodeBoxG) (peers : List NodeBoxG) : List TexLabel :=
  peers.map (fun q => (share_with_label a q).2)

/-- Stage 2 confirmation marks: `VGroup(*[tick_at(peer) for peer in peers])`. -/
def stage2_ticks (peers : List NodeBoxG) : List TickMark :=
  peers.map tick_at

/-- Symbolic anchors of the stage 3 arrows. -/
inductive Anchor where
  | nodeBottom (i : Fin 3)
  | pubGroupTop
deriving DecidableEq

/-- A stage 3 converging arrow, recorded by its symbolic anchors. -/
structure Stage3Arrow where
  startA : Anchor
  endA : Anchor
  color : MColor
  strokeWidth : ℕ
deriving DecidableEq

/-- `arrow1 = Arrow(start=p1.get_bottom(), end=pub_group.get_top(), ...)`. -/
def arrow1 : Stage3Arrow :=
  { startA := .nodeBottom 0, endA := .pubGroupTop, color := STAGE3_ARROW_COLOR, strokeWidth := 6 }

/-- `arrow2 = Arrow(start=p2.get_bottom(), end=pub_group.get_top(), ...)`. -/
def arrow2 : Stage3Arrow :=
  { startA := .nodeBottom 1, endA := .pubGroupTop, color := STAGE3_ARROW_COLOR, strokeWidth := 6 }

/-- `arrow3 = Arrow(start=p3.get_bottom(), end=pub_group.get_top(), ...)`. -/
def arrow3 : Stage3Arrow :=
  { startA := .nodeBottom 2, endA := .pubGroupTop, color := STAGE3_ARROW_COLOR, strokeWidth := 6 }

/-- `down_arrows = VGroup(arrow1, arrow2, arrow3)`. -/
def down_arrows : List Stage3Arrow := [arrow1, arrow2, arrow3]

/- ---------------------------------------------------------------- -/
/- Trace layer: the play/wait steps of FrostDKGScene.construct.      -/
/- ---------------------------------------------------------------- -/

/-- The displayable objects the scene ever creates, by identity. -/
inductive SceneObj where
  | node (i : Fin 3)
  | stageTitle (k : Fin 3)
  | briefText (k : Fin 4)
  | polyTex (r : Fin 3)
  | bArrow (r : Fin 3) (j : Fin 2)
  | bLabel (r : Fin 3) (j : Fin 2)
  | sArrow (r : Fin 3) (j : Fin 2)
  | sLabel (r : Fin 3) (j : Fin 2)
  | tickMark (r : Fin 3) (j : Fin 2)
  | downArrow (i : Fin 3)
  | contribLabel (i : Fin 3)
  | pubGroup
  | secretGroup
deriving DecidableEq

/-- The two persistent result groups of stage 3. -/
def result_groups : List SceneObj := [SceneObj.pubGroup, SceneObj.secretGroup]

/-- Atomic commands a play/wait step issues. -/
inductive SceneCmd where
  | add (o : SceneObj)
  | remove (o : SceneObj)
  | setActive (i : Fin 3)
  | setInactive (i : Fin 3)
  | moveNode (i : Fin 3)
  | moveAll
  | pause (t : ℚ)

/-- Discrete scene state: which objects are on the surface, and which nodes
currently carry the Active display state. -/
structure SceneSt where
  displayed : List SceneObj
  activeFlags : Fin 3 → Bool

def applyCmd (s : SceneSt) : SceneCmd → SceneSt
  | .add o => { s with displayed := s.displayed ++ [o] }
  | .remove o => { s with displayed := s.displayed.erase o }
  | .setActive i => { s with activeFlags := Function.update s.activeFlags i true }
  | .setInactive i => { s with activeFlags := Function.update s.activeFlags i false }
  | .moveNode _ => s
  | .moveAll => s
  | .pause _ => s

/-- One `self.play`/`self.wait` call: its commands commit together. -/
def applyStep (s : SceneSt) (cs : List SceneCmd) : SceneSt :=
  cs.foldl applyCmd s

/-- Before `construct` runs: empty surface, every node Inactive. -/
def initialScene : SceneSt :=
  { displayed := [], activeFlags := fun _ => false }

def runTrace (tr : List (List SceneCmd)) : SceneSt :=
  tr.foldl applyStep initialScene

/-- Number of nodes currently in the Active state. -/
def activeCount (s : SceneSt) : ℕ :=
  (List.finRange 3).countP s.activeFlags

/-- The two non-spotlighted nodes, in ascending order, exactly as
`[n for n in nodes if n != active]` enumerates them. -/
def peersOf (a : Fin 3) : Fin 3 × Fin 3 :=
  if a = 0 then (1, 2) else if a = 1 then (0, 2) else (0, 1)

/-- `self.play(active.activate(), *[n.deactivate() for n in nodes if n != active])`. -/
def spotlightStep (a : Fin 3) : List SceneCmd :=
  [.setActive a, .setInactive (peersOf a).1, .setInactive (peersOf a).2]

/-- One stage 1 sub-step: spotlight, polynomial, broadcast bundle (2 arrows,
2 labels), pause, retraction. -/
def stage1Round (r : Fin 3) : List (List SceneCmd) :=
  [spotlightStep r,
   [.add (.polyTex r)],
   [.add (.bArrow r 0), .add (.bArrow r 1)],
   [.add (.bLabel r 0), .add (.bLabel r 1)],
   [.pause (3/10)],
   [.remove (.bArrow r 0), .remove (.bArrow r 1), .remove (.bLabel r 0),
    .remove (.bLabel r 1), .remove (.polyTex r)]]

/-- One stage 2 sub-step: spotlight, 2 share arrows, 2 labels, 2 ticks,
pause, retraction. -/
def stage2Round (r : Fin 3) : List (List SceneCmd) :=
  [spotlightStep r,
   [.add (.sArrow r 0), .add (.sArrow r 1)],
   [.add (.sLabel r 0), .add (.sLabel r 1)],
   [.add (.tickMark r 0), .add (.tickMark r 1)],
   [.pause (1/2)],
   [.remove (.sArrow r 0), .remove (.sArrow r 1), .remove (.sLabel r 0),
    .remove (.sLabel r 1), .remove (.tickMark r 0), .remove (.tickMark r 1)]]

/-- The `brief(txt)` helper: write, hold two seconds, fade out. -/
def briefSteps (k : Fin 4) : List (List SceneCmd) :=
  [[.add (.briefText k)], [.pause 2], [.remove (.briefText k)]]

/-- The full `FrostDKGScene.construct` trace, one entry per play/wait call,
in source order. -/
def constructTrace : List (List SceneCmd) :=
  [[.add (.node 0), .add (.node 1), .add (.node 2)],
   [.moveAll],
   [.pause (1/2)]]
  ++ [[.add (.stageTitle 0)], [.pause (3/10)]]
  ++ briefSteps 0
  ++ stage1Round 0 ++ stage1Round 1 ++ stage1Round 2
  ++ [[.pause 1], [.remove (.stageTitle 0)]]
  ++ [[.add (.stageTitle 1)], [.pause (3/10)]]
  ++ briefSteps 1
  ++ stage2Round 0 ++ stage2Round 1 ++ stage2Round 2
  ++ [[.pause 1], [.remove (.stageTitle 1)]]
  ++ [[.add (.stageTitle 2)], [.pause (1/2)]]
  ++ briefSteps 2
  ++ [[.moveNode 0, .moveNode 1, .moveNode 2],
      [.add (.downArrow 0), .add (.downArrow 1), .add (.downArrow 2)],
      [.add (.contribLabel 0), .add (.contribLabel 1), .add (.contribLabel 2)],
      [.add .pubGroup],
      [.add .secretGroup],
      [.pause 2]]
  ++ briefSteps 3

/- ---------------------------------------------------------------- -/
/- Group Composer validation, modelled from the spec.                -/
/- ---------------------------------------------------------------- -/

/-- Modelled from the spec: the `ConfigurationError` taxonomy of section 7.
The source contains no validation code (its stage script is hardcoded), so
the error type is taken from the spec's words. -/
inductive ConfigurationError where
  | unknownEntity (id : String)
  | nonPositiveDuration (d : ℚ)
deriving DecidableEq

/-- Modelled from the spec: a requested Group Composer unit before
validation — an atomic visual operation naming an entity and a duration, or
a concurrent / sequential nesting of members (section 4.4). -/
inductive RawUnit where
  | atomOp (entityId : String) (duration : ℚ)
  | concurrentOf (a b : RawUnit)
  | sequentialOf (a b : RawUnit)
deriving DecidableEq

/-- A requested unit is invalid when, anywhere in its nesting, an atomic
operation names an entity outside the entity set or requests a zero or
negative duration. -/
def invalidUnit (ents : List String) : RawUnit → Bool
  | .atomOp e d => !(ents.contains e) || decide (d ≤ 0)
  | .concurrentOf a b => invalidUnit ents a || invalidUnit ents b
  | .sequentialOf a b => invalidUnit ents a || invalidUnit ents b

/-- Modelled from the spec: GroupUnit construction validates its members
immediately and fails with a `ConfigurationError` (sections 4.4 and 7);
nested invalid members make the nesting unit's construction fail. -/
def buildGroupUnit (ents : List String) : RawUnit → Except ConfigurationError RawUnit
  | .atomOp e d =>
    if ents.contains e then
      if 0 < d then .ok (.atomOp e d) else .error (.nonPositiveDuration d)
    else .error (.unknownEntity e)
  | .concurrentOf a b =>
    match buildGroupUnit ents a with
    | .error er => .error er
    | .ok a2 =>
      match buildGroupUnit ents b with
      | .error er => .error er
      | .ok b2 => .ok (.concurrentOf a2 b2)
  | .sequentialOf a b =>
    match buildGroupUnit ents a with
    | .error er => .error er
    | .ok a2 =>
      match buildGroupUnit ents b with
      | .error er => .error er
      | .ok b2 => .ok (.sequentialOf a2 b2)

/-- A rendering-surface command (spec section 6). -/
inductive RenderCmd where
  | applyTransition (entityId : String) (duration : ℚ)
deriving DecidableEq

/-- Scheduling a constructed unit: total, never raises. -/
def scheduleUnit : RawUnit → List RenderCmd
  | .atomOp e d => [.applyTransition e d]
  | .concurrentOf a b => scheduleUnit a ++ scheduleUnit b
  | .sequentialOf a b => scheduleUnit a ++ scheduleUnit b

/-- Construct, then schedule only on success: the rendering commands a
requested unit ever produces. -/
def runScript (ents : List String) (u : RawUnit) : List RenderCmd :=
  match buildGroupUnit ents u with
  | .error _ => []
  | .ok v => scheduleUnit v

/-- Entity set of the demonstration script. -/
def demoEntities : List String := ["P1", "P2", "P3"]

/-- A unit nesting a reference to the unknown participant `P9`. -/
def badUnit : RawUnit := .concurrentOf (.atomOp ("P1") 1) (.atomOp ("P9") 2)

/- ---------------------------------------------------------------- -/
/- Helper lemmas: geometry.                                          -/
/- ---------------------------------------------------------------- -/

lemma norm2_nonneg (v : ℝ × ℝ) : 0 ≤ norm2 v :=
  Real.sqrt_nonneg _

lemma norm2_eq_zero (v : ℝ × ℝ) : norm2 v = 0 ↔ v = 0 := by
  unfold norm2
  rw [Real.sqrt_eq_zero']
  constructor
  · intro h
    have h1 : v.1 ^ 2 = 0 :=
      le_antisymm (by nlinarith [sq_nonneg v.2]) (sq_nonneg v.1)
    have h2 : v.2 ^ 2 = 0 :=
      le_antisymm (by nlinarith [sq_nonneg v.1]) (sq_nonneg v.2)
    have hv : v = (v.1, v.2) := rfl
    rw [hv, sq_eq_zero_iff.mp h1, sq_eq_zero_iff.mp h2]
    rfl
  · intro h
    rw [h]
    norm_num

lemma norm2_zero : norm2 (0 : ℝ × ℝ) = 0 :=
  (norm2_eq_zero 0).mpr rfl

lemma norm2_pos (v : ℝ × ℝ) (hv : v ≠ 0) : 0 < norm2 v :=
  lt_of_le_of_ne (norm2_nonneg v) (fun h => hv ((norm2_eq_zero v).mp h.symm))

lemma norm2_smul (c : ℝ) (v : ℝ × ℝ) : norm2 (c • v) = |c| * norm2 v := by
  unfold norm2
  have h1 : (c • v).1 = c * v.1 := rfl
  have h2 : (c • v).2 = c * v.2 := rfl
  rw [h1, h2, show (c * v.1) ^ 2 + (c * v.2) ^ 2 = c ^ 2 * (v.1 ^ 2 + v.2 ^ 2) by ring,
    Real.sqrt_mul (sq_nonneg c), Real.sqrt_sq_eq_abs]

/-- Evaluating `norm2` when a square root witness is known. -/
lemma norm2_of_sq (v : ℝ × ℝ) (L : ℝ) (hL : 0 ≤ L) (h : v.1 ^ 2 + v.2 ^ 2 = L ^ 2) :
    norm2 v = L := by
  unfold norm2
  rw [h, Real.sqrt_sq hL]

lemma nodeBorder_eq : nodeBorder = 1 := by
  unfold nodeBorder rectWidth rectHeight
  rw [max_eq_left (by norm_num : (1 : ℝ) ≤ 2)]
  norm_num

lemma edge_point_self (n : NodeBoxG) (t : ℝ × ℝ) (m : ℝ) (ht : t = n.center) :
    n.edge_point t m = n.center := by
  rw [ht]
  simp [NodeBoxG.edge_point, sub_self, norm2_zero]

lemma edge_point_dist (n : NodeBoxG) (t : ℝ × ℝ) (m : ℝ) (ht : t ≠ n.center) (hm : 0 ≤ m) :
    norm2 (n.edge_point t m - n.center) = nodeBorder + m := by
  have hv : t - n.center ≠ 0 := sub_ne_zero.mpr ht
  have hp : 0 < norm2 (t - n.center) := norm2_pos _ hv
  unfold NodeBoxG.edge_point
  rw [if_neg hp.ne', add_sub_cancel_left, norm2_smul, norm2_smul,
    abs_of_nonneg (by rw [nodeBorder_eq]; linarith : (0 : ℝ) ≤ nodeBorder + m),
    abs_of_nonneg (inv_nonneg.mpr (norm2_nonneg _)), inv_mul_cancel₀ hp.ne', mul_one]

lemma edge_point_ray (n : NodeBoxG) (t : ℝ × ℝ) (m : ℝ) (ht : t ≠ n.center) (hm : 0 ≤ m) :
    ∃ c : ℝ, 0 < c ∧ n.edge_point t m - n.center = c • (t - n.center) := by
  have hv : t - n.center ≠ 0 := sub_ne_zero.mpr ht
  have hp : 0 < norm2 (t - n.center) := norm2_pos _ hv
  refine ⟨(nodeBorder + m) * (norm2 (t - n.center))⁻¹, ?_, ?_⟩
  · exact mul_pos (by rw [nodeBorder_eq]; linarith) (inv_pos.mpr hp)
  · unfold NodeBoxG.edge_point
    rw [if_neg hp.ne', add_sub_cancel_left, smul_smul]

/-- Evaluating `edge_point` when the direction norm is known. -/
lemma edge_point_of_norm (n : NodeBoxG) (t : ℝ × ℝ) (m L : ℝ)
    (hL : norm2 (t - n.center) = L) (h0 : L ≠ 0) :
    n.edge_point t m = n.center + ((nodeBorder + m) * L⁻¹) • (t - n.center) := by
  unfold NodeBoxG.edge_point
  simp only [hL]
  rw [if_neg h0, smul_smul]

/- ---------------------------------------------------------------- -/
/- Helper lemmas: broadcast bundles.                                 -/
/- ---------------------------------------------------------------- -/

lemma broadcastAux_arrows (p : NodeBoxG) (i : ℕ) (peers : List NodeBoxG) :
    (broadcastAux p i peers).1 = peers.map (fun t => arrow_between p t BROADCAST_COLOR 4) := by
  induction peers generalizing i with
  | nil => rfl
  | cons t rest ih => simp [broadcastAux, ih]

lemma broadcastAux_snd_length (p : NodeBoxG) (i : ℕ) (peers : List NodeBoxG) :
    (broadcastAux p i peers).2.length = peers.length := by
  induction peers generalizing i with
  | nil => rfl
  | cons t rest ih => simp [broadcastAux, ih]

lemma broadcastAux_labels_pos (p : NodeBoxG) (i : ℕ) (peers : List NodeBoxG) :
    (broadcastAux p i peers).2.map (fun l => l.pos)
      = (broadcastAux p i peers).1.map (fun ar => ar.midP + ((0 : ℝ), 3/10)) := by
  induction peers generalizing i with
  | nil => rfl
  | cons t rest ih => simp [broadcastAux, ih]

lemma broadcastAux_labels_text (p : NodeBoxG) (i : ℕ) (peers : List NodeBoxG) :
    (broadcastAux p i peers).2.map (fun l => l.text)
      = (List.range peers.length).map (fun k => TexStr.gPowC (i + k)) := by
  induction peers generalizing i with
  | nil => rfl
  | cons t rest ih =>
    simp only [broadcastAux, List.map_cons, List.length_cons, List.range_succ_eq_map,
      List.map_map, ih (i + 1)]
    refine congrArg₂ List.cons (by rw [Nat.add_zero]) ?_
    have hfun : (fun k => TexStr.gPowC (i + 1 + k)) = (fun k => TexStr.gPowC (i + k)) ∘ Nat.succ := by
      funext k
      simp only [Function.comp]
      congr 1
      omega
    rw [hfun]

/- ---------------------------------------------------------------- -/
/- Helper lemmas: trace invariant.                                   -/
/- ---------------------------------------------------------------- -/

/-- Single-pass check that every prefix of a trace keeps at most one node
Active. -/
def prefixOk : List (List SceneCmd) → SceneSt → Bool
  | [], s => decide (activeCount s ≤ 1)
  | st :: rest, s => decide (activeCount s ≤ 1) && prefixOk rest (applyStep s st)

lemma prefixOk_spec (tr : List (List SceneCmd)) (s : SceneSt) (h : prefixOk tr s = true)
    (n : ℕ) : activeCount ((tr.take n).foldl applyStep s) ≤ 1 := by
  induction tr generalizing s n with
  | nil =>
    simp only [List.take_nil, List.foldl_nil]
    exact of_decide_eq_true h
  | cons st rest ih =>
    simp only [prefixOk, Bool.and_eq_true] at h
    cases n with
    | zero =>
      simpa using of_decide_eq_true h.1
    | succ k =>
      simpa using ih (applyStep s st) h.2 k

/- ---------------------------------------------------------------- -/
/- Helper lemmas: GroupUnit validation.                              -/
/- ---------------------------------------------------------------- -/

lemma buildGroupUnit_invalid (ents : List String) (u : RawUnit)
    (h : invalidUnit ents u = true) :
    ∃ er : ConfigurationError, buildGroupUnit ents u = .error er := by
  induction u with
  | atomOp e d =>
    simp only [invalidUnit, Bool.or_eq_true] at h
    by_cases hc : ents.contains e = true
    · have hm : e ∈ ents := by simpa using hc
      have hd : d ≤ 0 := by
        rcases h with h | h
        · exact absurd hm (by simpa using h)
        · exact of_decide_eq_true h
      exact ⟨.nonPositiveDuration d, by simp [buildGroupUnit, hm, not_lt.mpr hd]⟩
    · have hm : e ∉ ents := by simpa using hc
      exact ⟨.unknownEntity e, by simp [buildGroupUnit, hm]⟩
  | concurrentOf a b iha ihb =>
    cases hb : buildGroupUnit ents a with
    | error er => exact ⟨er, by simp [buildGroupUnit, hb]⟩
    | ok v =>
      simp only [invalidUnit, Bool.or_eq_true] at h
      rcases h with h | h
      · obtain ⟨er, he⟩ := iha h
        rw [he] at hb
        cases hb
      · obtain ⟨er, he⟩ := ihb h
        exact ⟨er, by simp [buildGroupUnit, hb, he]⟩
  | sequentialOf a b iha ihb =>
    cases hb : buildGroupUnit ents a with
    | error er => exact ⟨er, by simp [buildGroupUnit, hb]⟩
    | ok v =>
      simp only [invalidUnit, Bool.or_eq_true] at h
      rcases h with h | h
      · obtain ⟨er, he⟩ := iha h
        rw [he] at hb
        cases hb
      · obtain ⟨er, he⟩ := ihb h
        exact ⟨er, by simp [buildGroupUnit, hb, he]⟩

/- ---------------------------------------------------------------- -/
/- Concrete boxes used by counterexamples and witnesses.             -/
/- ---------------------------------------------------------------- -/

/-- A box at the origin (a vertically separated pair with `boxV2`). -/
noncomputable def boxV1 : NodeBoxG := (mkNodeBox ("V1")).moveTo ((0 : ℝ), (0 : ℝ))

/-- A box three units above `boxV1`. -/
noncomputable def boxV2 : NodeBoxG := (mkNodeBox ("V2")).moveTo ((0 : ℝ), (3 : ℝ))

/- ---------------------------------------------------------------- -/
/- Claim theorems.                                                   -/
/- ---------------------------------------------------------------- -/

/-- C1: a stage configuration that references a participant identifier not in
the entity set, nests such an invalid member, or requests a zero or negative
duration makes GroupUnit construction fail with a `ConfigurationError`
immediately, and no rendering command is ever issued — the failure is never
deferred to scheduling time.  The validation layer is modelled from the spec
(sections 4.4 and 7); the source's stage script is hardcoded and has no
identifier lookup of its own. -/
theorem configuration_error_at_construction (ents : List String) (u : RawUnit)
    (h : invalidUnit ents u = true) :
    (∃ er : ConfigurationError, buildGroupUnit ents u = .error er) ∧
    runScript ents u = [] := by
  obtain ⟨er, he⟩ := buildGroupUnit_invalid ents u h
  exact ⟨⟨er, he⟩, by simp [runScript, he]⟩

/-- C1 witness: a concurrent unit nesting a reference to the unknown
participant `P9` fails construction and produces no rendering command. -/
theorem configuration_error_at_construction_witness :
    invalidUnit demoEntities badUnit = true ∧
    ((∃ er : ConfigurationError, buildGroupUnit demoEntities badUnit = .error er) ∧
      runScript demoEntities badUnit = []) :=
  ⟨by decide, configuration_error_at_construction demoEntities badUnit (by decide)⟩

/-- C2 counterexample: the claim says connectors start exactly on the first
entity's boundary with zero outward margin, i.e. at `edge_point(a, b.center, 0)`.
On the non-coincident pair `p1`, `p2` of the script, the connector built by
`arrow_between` starts at `edge_point` with the default margin `0.1`, which
differs from the zero-margin point. -/
theorem connector_zero_margin_counterexample :
    p1.center ≠ p2.center ∧
    (arrow_between p1 p2 BROADCAST_COLOR 4).startP ≠ p1.edge_point p2.center 0 := by
  have hc1 : p1.center = ((-3 : ℝ), (1/2 : ℝ)) := rfl
  have hc2 : p2.center = ((3 : ℝ), (1/2 : ℝ)) := rfl
  have hd : p2.center - p1.center = ((6 : ℝ), (0 : ℝ)) := by
    rw [hc1, hc2, Prod.mk_sub_mk]
    norm_num
  have hL : norm2 (p2.center - p1.center) = 6 := by
    rw [hd]
    exact norm2_of_sq _ 6 (by norm_num) (by norm_num)
  constructor
  · rw [hc1, hc2]
    intro hcontra
    have h2 := congrArg Prod.fst hcontra
    norm_num at h2
  · have h1 : (arrow_between p1 p2 BROADCAST_COLOR 4).startP = ((-19/10 : ℝ), (1/2 : ℝ)) := by
      show p1.edge_point p2.center (1/10) = _
      rw [edge_point_of_norm p1 p2.center (1/10) 6 hL (by norm_num), hd, nodeBorder_eq, hc1,
        Prod.smul_mk, Prod.mk_add_mk]
      norm_num [smul_eq_mul]
    have h2 : p1.edge_point p2.center 0 = ((-2 : ℝ), (1/2 : ℝ)) := by
      rw [edge_point_of_norm p1 p2.center 0 6 hL (by norm_num), hd, nodeBorder_eq, hc1,
        Prod.smul_mk, Prod.mk_add_mk]
      norm_num [smul_eq_mul]
    rw [h1, h2]
    intro hcontra
    have h3 := congrArg Prod.fst hcontra
    norm_num at h3

/-- C2 amended: for every pair of non-coincident entities the connector starts
at `edge_point(a, b.center, 0.1)` and ends at `edge_point(b, a.center, 0.1)` —
each endpoint lies on the respective entity's side facing the other at
distance `boundingHalfExtent + 0.1` from its center, i.e. `0.1` outside the
boundary rather than exactly on it. -/
theorem connector_endpoints_amended (a b : NodeBoxG) (c : MColor) (w : ℕ)
    (hab : a.center ≠ b.center) :
    (arrow_between a b c w).startP = a.edge_point b.center (1/10) ∧
    (arrow_between a b c w).endP = b.edge_point a.center (1/10) ∧
    norm2 ((arrow_between a b c w).startP - a.center) = nodeBorder + 1/10 ∧
    norm2 ((arrow_between a b c w).endP - b.center) = nodeBorder + 1/10 := by
  refine ⟨rfl, rfl, ?_, ?_⟩
  · exact edge_point_dist a b.center (1/10) (Ne.symm hab) (by norm_num)
  · exact edge_point_dist b a.center (1/10) hab (by norm_num)

/-- C2 amended witness: instantiated at the script's boxes `p1`, `p2`. -/
theorem connector_endpoints_amended_witness :
    p1.center ≠ p2.center ∧
    ((arrow_between p1 p2 BROADCAST_COLOR 4).startP = p1.edge_point p2.center (1/10) ∧
     (arrow_between p1 p2 BROADCAST_COLOR 4).endP = p2.edge_point p1.center (1/10) ∧
     norm2 ((arrow_between p1 p2 BROADCAST_COLOR 4).startP - p1.center) = nodeBorder + 1/10 ∧
     norm2 ((arrow_between p1 p2 BROADCAST_COLOR 4).endP - p2.center) = nodeBorder + 1/10) := by
  have hne : p1.center ≠ p2.center := by
    rw [show p1.center = ((-3 : ℝ), (1/2 : ℝ)) from rfl,
      show p2.center = ((3 : ℝ), (1/2 : ℝ)) from rfl]
    intro hcontra
    have h2 := congrArg Prod.fst hcontra
    norm_num at h2
  exact ⟨hne, connector_endpoints_amended p1 p2 BROADCAST_COLOR 4 hne⟩

/-- C3: for a nonnegative margin, `edge_point` returns the center unchanged
when the target coincides with the center, and otherwise a point on the ray
from the center toward the target at Euclidean distance
`boundingHalfExtent + margin` from the center. -/
theorem edge_point_distance_spec (n : NodeBoxG) (t : ℝ × ℝ) (m : ℝ) (hm : 0 ≤ m) :
    (t = n.center → n.edge_point t m = n.center) ∧
    (t ≠ n.center →
      norm2 (n.edge_point t m - n.center) = nodeBorder + m ∧
      ∃ c : ℝ, 0 < c ∧ n.edge_point t m - n.center = c • (t - n.center)) :=
  ⟨fun h => edge_point_self n t m h,
   fun h => ⟨edge_point_dist n t m h hm, edge_point_ray n t m h hm⟩⟩

/-- C3 witness: instantiated at `boxV1` with target `(0, 3)` and the source's
default margin `0.1`. -/
theorem edge_point_distance_spec_witness :
    (0 : ℝ) ≤ 1/10 ∧
    ((((0 : ℝ), (3 : ℝ)) = boxV1.center →
        boxV1.edge_point ((0 : ℝ), (3 : ℝ)) (1/10) = boxV1.center) ∧
     (((0 : ℝ), (3 : ℝ)) ≠ boxV1.center →
        norm2 (boxV1.edge_point ((0 : ℝ), (3 : ℝ)) (1/10) - boxV1.center) = nodeBorder + 1/10 ∧
        ∃ c : ℝ, 0 < c ∧ boxV1.edge_point ((0 : ℝ), (3 : ℝ)) (1/10) - boxV1.center
          = c • (((0 : ℝ), (3 : ℝ)) - boxV1.center))) :=
  ⟨by norm_num, edge_point_distance_spec boxV1 ((0 : ℝ), (3 : ℝ)) (1/10) (by norm_num)⟩

/-- C4: the 3-stage script on `P1, P2, P3` has, in stage 1, exactly 3
sub-steps (one per participant as active) each emitting a broadcast bundle of
exactly 2 connectors (and 2 labels); in stage 2, exactly 3 sub-steps each
emitting 2 pairwise share connectors plus 2 confirmation marks; and in stage
3, exactly 3 connectors converging on a common anchor above the result text,
with the 2 result groups (public and private aggregate) still displayed —
never retracted — in the final scene state of the whole run. -/
theorem stage_script_shape :
    stage1_rounds.length = 3 ∧
    stage1_rounds.map (fun pr => pr.1) = [p1, p2, p3] ∧
    stage1_rounds.map (fun pr => (broadcast_with_labels pr.1 pr.2).1.length) = [2, 2, 2] ∧
    stage1_rounds.map (fun pr => (broadcast_with_labels pr.1 pr.2).2.length) = [2, 2, 2] ∧
    stage2_rounds.length = 3 ∧
    stage2_rounds.map (fun pr => pr.1) = [p1, p2, p3] ∧
    stage2_rounds.map (fun pr => (stage2_arrows pr.1 pr.2).length) = [2, 2, 2] ∧
    stage2_rounds.map (fun pr => (stage2_ticks pr.2).length) = [2, 2, 2] ∧
    down_arrows.length = 3 ∧
    down_arrows.map (fun ar => ar.endA)
      = [Anchor.pubGroupTop, Anchor.pubGroupTop, Anchor.pubGroupTop] ∧
    result_groups.length = 2 ∧
    SceneObj.pubGroup ∈ (runTrace constructTrace).displayed ∧
    SceneObj.secretGroup ∈ (runTrace constructTrace).displayed := by
  refine ⟨rfl, rfl, rfl, rfl, rfl, rfl, rfl, rfl, rfl, rfl, rfl, by decide, by decide⟩

/-- C5: committing `deactivate()` and then `activate()` ends in exactly the
visual property values (fill color and opacity, border color, label color)
produced by committing `activate()` alone, from any starting state. -/
theorem deactivate_activate_roundtrip (s : VisualState) :
    applyOps (applyOps s deactivateOps) activateOps = applyOps s activateOps := rfl

/-- C6: `broadcast_with_labels` returns exactly one connector and one inline
label per peer, in input order; in particular on `[q, r]` it returns exactly
2 connectors ordered `[q, r]` and 2 labels, each connector starting at the
sender's boundary anchor toward the peer and ending at the peer's boundary
anchor toward the sender. -/
theorem broadcast_bundle_spec (p q r : NodeBoxG) (peers : List NodeBoxG) :
    (broadcast_with_labels p peers).1
      = peers.map (fun t => arrow_between p t BROADCAST_COLOR 4) ∧
    (broadcast_with_labels p peers).1.length = peers.length ∧
    (broadcast_with_labels p peers).2.length = peers.length ∧
    (broadcast_with_labels p peers).2.map (fun l => l.text)
      = (List.range peers.length).map (fun k => TexStr.gPowC (1 + k)) ∧
    (broadcast_with_labels p [q, r]).1
      = [arrow_between p q BROADCAST_COLOR 4, arrow_between p r BROADCAST_COLOR 4] ∧
    (broadcast_with_labels p [q, r]).2.length = 2 ∧
    (arrow_between p q BROADCAST_COLOR 4).startP = p.edge_point q.center (1/10) ∧
    (arrow_between p q BROADCAST_COLOR 4).endP = q.edge_point p.center (1/10) := by
  refine ⟨broadcastAux_arrows p 1 peers, ?_, broadcastAux_snd_length p 1 peers,
    broadcastAux_labels_text p 1 peers, ?_, rfl, rfl, rfl⟩
  · rw [show (broadcast_with_labels p peers).1 = _ from broadcastAux_arrows p 1 peers,
      List.length_map]
  · simpa using broadcastAux_arrows p 1 [q, r]

/-- C7 counterexample: the claim says each inline label is offset from the
connector midpoint in the direction perpendicular to the connector.  For the
vertical connector between `boxV1` and `boxV2`, the label offset produced by
`share_with_label` is the fixed vector `(0, 0.25)`, which is nonzero and not
perpendicular to the connector direction (their dot product is nonzero). -/
theorem label_offset_not_perpendicular :
    (share_with_label boxV1 boxV2).2.pos - (share_with_label boxV1 boxV2).1.midP ≠ 0 ∧
    dotProd ((share_with_label boxV1 boxV2).2.pos - (share_with_label boxV1 boxV2).1.midP)
      ((share_with_label boxV1 boxV2).1.endP - (share_with_label boxV1 boxV2).1.startP) ≠ 0 := by
  have hoff : (share_with_label boxV1 boxV2).2.pos - (share_with_label boxV1 boxV2).1.midP
      = ((0 : ℝ), 1/4) := by
    show (arrow_between boxV1 boxV2 SHARE_COLOR 6).midP + ((0 : ℝ), 1/4)
        - (arrow_between boxV1 boxV2 SHARE_COLOR 6).midP = ((0 : ℝ), 1/4)
    exact add_sub_cancel_left _ _
  have hd1 : boxV2.center - boxV1.center = ((0 : ℝ), (3 : ℝ)) := by
    show ((0 : ℝ), (3 : ℝ)) - ((0 : ℝ), (0 : ℝ)) = ((0 : ℝ), (3 : ℝ))
    rw [Prod.mk_sub_mk]
    norm_num
  have hd2 : boxV1.center - boxV2.center = ((0 : ℝ), (-3 : ℝ)) := by
    show ((0 : ℝ), (0 : ℝ)) - ((0 : ℝ), (3 : ℝ)) = ((0 : ℝ), (-3 : ℝ))
    rw [Prod.mk_sub_mk]
    norm_num
  have hL1 : norm2 (boxV2.center - boxV1.center) = 3 := by
    rw [hd1]
    exact norm2_of_sq _ 3 (by norm_num) (by norm_num)
  have hL2 : norm2 (boxV1.center - boxV2.center) = 3 := by
    rw [hd2]
    exact norm2_of_sq _ 3 (by norm_num) (by norm_num)
  have hs : (share_with_label boxV1 boxV2).1.startP = ((0 : ℝ), 11/10) := by
    show boxV1.edge_point boxV2.center (1/10) = _
    rw [edge_point_of_norm boxV1 boxV2.center (1/10) 3 hL1 (by norm_num), hd1, nodeBorder_eq,
      show boxV1.center = ((0 : ℝ), (0 : ℝ)) from rfl, Prod.smul_mk, Prod.mk_add_mk]
    norm_num [smul_eq_mul]
  have he : (share_with_label boxV1 boxV2).1.endP = ((0 : ℝ), 19/10) := by
    show boxV2.edge_point boxV1.center (1/10) = _
    rw [edge_point_of_norm boxV2 boxV1.center (1/10) 3 hL2 (by norm_num), hd2, nodeBorder_eq,
      show boxV2.center = ((0 : ℝ), (3 : ℝ)) from rfl, Prod.smul_mk, Prod.mk_add_mk]
    norm_num [smul_eq_mul]
  constructor
  · rw [hoff]
    intro hcontra
    have h2 := congrArg Prod.snd hcontra
    norm_num at h2
  · rw [hoff, hs, he, Prod.mk_sub_mk]
    unfold dotProd
    norm_num

/-- C7 amended: each inline label sits at the connector's midpoint offset by
a fixed upward vector (`0.25` up for share connectors, `0.3` up for broadcast
bundles), independent of the connector's direction; the offset is
perpendicular to the connector only when the connector is horizontal. -/
theorem label_offset_fixed_up (a b pnode : NodeBoxG) (peers : List NodeBoxG) :
    (share_with_label a b).2.pos = (share_with_label a b).1.midP + ((0 : ℝ), 1/4) ∧
    (broadcast_with_labels pnode peers).2.map (fun l => l.pos)
      = (broadcast_with_labels pnode peers).1.map (fun ar => ar.midP + ((0 : ℝ), 3/10)) :=
  ⟨rfl, broadcastAux_labels_pos pnode 1 peers⟩

/-- C8: after every prefix of the run's trace at most one node carries the
Active state, and a spotlight step applied to any flag assignment activates
exactly the spotlighted node while deactivating every other node. -/
theorem spotlight_at_most_one_active :
    (∀ n : ℕ, activeCount (runTrace (constructTrace.take n)) ≤ 1) ∧
    (∀ (a : Fin 3) (f : Fin 3 → Bool),
      (applyStep { displayed := [], activeFlags := f } (spotlightStep a)).activeFlags
        = fun j => decide (j = a)) := by
  constructor
  · intro n
    exact prefixOk_spec constructTrace initialScene (by decide) n
  · decide

/-- C9: `activate()`, `deactivate()` and `edge_point()` leave the entity
(its box, position and committed visual state) unchanged — they only return
the schedulable unit (or the queried point) — and the visual state changes
only when the sequencer commits the returned unit. -/
theorem entity_methods_pure (e : Entity) (t : ℝ × ℝ) (m : ℝ) :
    (e.activateCall).2 = e ∧
    (e.deactivateCall).2 = e ∧
    (e.edgePointCall t m).2 = e ∧
    (e.activateCall).1 = activateOps ∧
    (e.deactivateCall).1 = deactivateOps ∧
    (e.commit (e.activateCall).1).visual = applyOps e.visual activateOps ∧
    (e.commit (e.activateCall).1).box = e.box :=
  ⟨rfl, rfl, rfl, rfl, rfl, rfl, rfl⟩

/-- C10 counterexample: the claim says the label color applied by
`activate()` differs from the one applied by `deactivate()`.  Starting from
the initial visual state, both calls set the label color to the same value
(`WHITE`). -/
theorem label_color_equal_counterexample :
    (applyOps initialVisual activateOps).textColor
      = (applyOps initialVisual deactivateOps).textColor := rfl

/-- C10 amended: `activate()` and `deactivate()` apply the same label color
(`WHITE`); the Active and Inactive states contrast through fill color, fill
opacity and border color instead. -/
theorem state_contrast_amended (s1 s2 : VisualState) :
    (applyOps s1 activateOps).textColor = (applyOps s2 deactivateOps).textColor ∧
    (applyOps s1 activateOps).textColor = MColor.white ∧
    (applyOps s1 activateOps).fillColor ≠ (applyOps s2 deactivateOps).fillColor ∧
    (applyOps s1 activateOps).rectColor ≠ (applyOps s2 deactivateOps).rectColor ∧
    (applyOps s1 activateOps).fillOpacity ≠ (applyOps s2 deactivateOps).fillOpacity := by
  refine ⟨rfl, rfl, ?_, ?_, ?_⟩
  · show NODE_COLOR_ACTIVE ≠ NODE_COLOR_INACTIVE
    decide
  · show NODE_COLOR_ACTIVE ≠ NODE_COLOR_INACTIVE
    decide
  · show (4/5 : ℚ) ≠ 2/5
    norm_num
